import Mathlib

/-!
Verification of `oss2/models.py` (result/value objects of an object-storage
SDK) against its specification.  The Python module is shallowly embedded:
header mappings become association lists with case-insensitive lookup,
constructors that can `raise` become functions into `Except`, and the
stream-adapter pipeline built by `GetObjectResult.__init__` becomes an
inductive `Stream` of wrapped stages together with an executable byte
semantics for the stages (the adapter internals live in `oss2/utils.py`
and the crypto provider, which are outside the embedded source; they are
modelled from the spec where needed, as marked).
-/

namespace Oss2

/-- Headers of a transport response: an ordered mapping from names to values
(first binding wins), looked up case-insensitively as the spec requires of
the transport layer. -/
abbrev Headers := List (String × String)

/-- ASCII lower-casing of one character (used for case-insensitive header
lookup). -/
def lowerChar (c : Char) : Char :=
  if 65 ≤ c.toNat ∧ c.toNat ≤ 90 then Char.ofNat (c.toNat + 32) else c

/-- ASCII case folding of a header name. -/
def caseFold (s : String) : String := ⟨s.data.map lowerChar⟩

/-- Case-insensitive lookup of a header value; `none` when the header is
absent.  This is `key in headers` / `headers[key]` of the Python code. -/
def hget (headers : Headers) (key : String) : Option String :=
  (headers.find? (fun kv => caseFold kv.1 == caseFold key)).map (fun kv => kv.2)

/-- Decimal accumulator over a list of digit characters. -/
def digitsToNat : List Char → Nat → Nat
  | [], acc => acc
  | c :: cs, acc => digitsToNat cs (acc * 10 + (c.toNat - 48))

/-- Python `int()` on the well-formed decimal strings the SDK feeds it
(digits with an optional leading minus sign). -/
def pyInt (s : String) : Int :=
  match s.data with
  | '-' :: cs => -(digitsToNat cs 0 : Int)
  | cs => (digitsToNat cs 0 : Int)

/-- Python `str.strip(c)`: drop every leading and trailing occurrence of the
character `c`. -/
def pyStrip (c : Char) (s : String) : String :=
  ⟨((s.data.dropWhile (· == c)).reverse.dropWhile (· == c)).reverse⟩

/-- `_hget(headers, key, converter)` of models.py: apply the converter only
when the header is present, return `None` otherwise. -/
def hgetConv {α : Type} (headers : Headers) (key : String) (converter : String → α) :
    Option α :=
  (hget headers key).map converter

/-- `_get_etag` of models.py: the `etag` header with surrounding quote
characters stripped. -/
def get_etag (headers : Headers) : Option String :=
  hgetConv headers "etag" (pyStrip '"')

/-- Python truthiness of a str-or-None value: `None` and the empty string
are falsy. -/
def truthy : Option String → Bool
  | none => false
  | some s => !(s == "")

/-- A transport response as this module consumes it: status, headers and a
readable byte stream (`none` models a missing body; bytes are naturals). -/
structure Resp where
  status : Int
  headers : Headers
  body : Option (List Nat)
deriving DecidableEq, Repr

/-- `resp.headers.get('x-oss-request-id', '')` of `RequestResult.__init__`. -/
def requestIdOf (resp : Resp) : String :=
  (hget resp.headers "x-oss-request-id").getD ""

/-- The exceptions models.py raises (from `oss2/exceptions.py`):
`ClientError(message)`, `InconsistentError(message, request_id)`, and the
interpreter-level `TypeError` a Python builtin raises on a `None` argument. -/
inductive PyError where
  | clientError (message : String)
  | inconsistentError (message : String) (request_id : String)
  | typeError
deriving DecidableEq, Repr

/-- Modelled from the spec: the decryption-capability provider
(`oss2.crypto`, not part of the embedded source).  Its only behaviour this
module depends on is `decrypt_oss_meta_data`: decrypt the raw value of one
encryption-metadata header, yielding `none` when decryption fails.  The
provider is abstracted as that per-value decryption function. -/
structure CryptoProvider where
  decryptValue : String → Option String

/-- `provider.decrypt_oss_meta_data(headers, key)`: look the header up and
decrypt its value; an absent header is unresolvable (`None`), matching the
spec's "all three required encryption-metadata headers must be resolvable
through that provider". -/
def CryptoProvider.decrypt_oss_meta_data (p : CryptoProvider) (headers : Headers)
    (key : String) : Option String :=
  (hget headers key).bind p.decryptValue

/-- The composed read stream of a `GetObjectResult`, as the nest of adapter
stages models.py wraps around the raw response body: `progress` is
`make_progress_adapter`, `crc` is `make_crc_adapter`, `decrypt` is
`crypto_provider.make_decrypt_adapter(inner, key, int(start))`. -/
inductive Stream where
  | raw
  | progress (inner : Stream)
  | crc (inner : Stream)
  | decrypt (inner : Stream) (key : String) (start : Int)
deriving DecidableEq, Repr

/-- The pre-decryption part of the pipeline built at models.py lines
110-117: the raw body, wrapped by the progress adapter iff a callback was
given, wrapped by the checksum adapter iff crc is enabled. -/
def baseStream (progress_callback crc_enabled : Bool) : Stream :=
  let s := if progress_callback then Stream.progress Stream.raw else Stream.raw
  if crc_enabled then Stream.crc s else s

/-- Whether a decryption stage occurs anywhere in a composed stream. -/
def hasDecrypt : Stream → Bool
  | .raw => false
  | .progress s => hasDecrypt s
  | .crc s => hasDecrypt s
  | .decrypt _ _ _ => true

/-- The header names of the encryption metadata, the range indicator and the
server checksum, as models.py spells them. -/
def kKey : String := "x-oss-meta-oss-crypto-key"

def kStart : String := "x-oss-meta-oss-crypto-start"

def kAlg : String := "x-oss-meta-oss-cek-alg"

def kRange : String := "Content-Range"

def kCrc : String := "x-oss-hash-crc64ecma"

/-- Message of the `ClientError` raised at models.py line 108. -/
def range_get_msg : String :=
  "Could not get an encrypted object using byte-range parameter"

/-- Message of the `InconsistentError` raised at models.py lines 126-127
(the Python line continuation's interior whitespace is normalised). -/
def decrypt_meta_msg : String :=
  "all metadata keys are required for decryption (x-oss-meta-oss-crypto-key, x-oss-meta-oss-crypto-start, x-oss-meta-oss-cek-alg)"

/-- The fields a `GetObjectResult` object carries after a successful
`__init__`: the `RequestResult` and `HeadObjectResult` header-derived
fields, the private `__crc_enabled` flag and parsed `__crc` value, and the
composed stream. -/
structure GetObjectResult where
  status : Int
  headers : Headers
  request_id : String
  object_type : Option String
  last_modified : Option Int
  content_type : Option String
  content_length : Option Int
  etag : Option String
  crc_enabled : Bool
  crc : Option Int
  stream : Stream
deriving DecidableEq, Repr

/-- The successfully constructed object, given the stream the pipeline ended
up with.  Field for field this is `RequestResult.__init__` +
`HeadObjectResult.__init__` + the assignments of `GetObjectResult.__init__`
(`http_to_unixtime`, the HTTP-date parser of `oss2/utils.py`, is outside the
embedded source and passed as a parameter). -/
def GetObjectResult.mk0 (http_to_unixtime : String → Int) (resp : Resp)
    (crc_enabled : Bool) (stream : Stream) : GetObjectResult :=
  { status := resp.status
    headers := resp.headers
    request_id := requestIdOf resp
    object_type := hget resp.headers "x-oss-object-type"
    last_modified := hgetConv resp.headers "last-modified" http_to_unixtime
    content_type := hget resp.headers "content-type"
    content_length := (hget resp.headers "content-length").map pyInt
    etag := get_etag resp.headers
    crc_enabled := crc_enabled
    crc := (hget resp.headers kCrc).map pyInt
    stream := stream }

/-- `GetObjectResult.__init__(resp, progress_callback, crc_enabled,
crypto_provider)`, models.py lines 101-127.  The callback is abstracted to
its truthiness (whether one was given).  In source order: the
encrypted+range check raises `ClientError` first (before any stream stage is
wrapped); the progress and crc stages are added; then, only when a crypto
provider was supplied, the three metadata values are resolved and either the
decrypt stage is added or `InconsistentError` is raised with the request
id. -/
def GetObjectResult.make (http_to_unixtime : String → Int) (resp : Resp)
    (progress_callback crc_enabled : Bool)
    (crypto_provider : Option CryptoProvider) : Except PyError GetObjectResult :=
  if truthy (hget resp.headers kKey) && truthy (hget resp.headers kRange) then
    .error (.clientError range_get_msg)
  else
    match crypto_provider with
    | none =>
        .ok (GetObjectResult.mk0 http_to_unixtime resp crc_enabled
              (baseStream progress_callback crc_enabled))
    | some p =>
        if truthy (p.decrypt_oss_meta_data resp.headers kKey) &&
           truthy (p.decrypt_oss_meta_data resp.headers kStart) &&
           truthy (hget resp.headers kAlg) then
          .ok (GetObjectResult.mk0 http_to_unixtime resp crc_enabled
                (Stream.decrypt (baseStream progress_callback crc_enabled)
                  ((p.decrypt_oss_meta_data resp.headers kKey).getD "")
                  (pyInt ((p.decrypt_oss_meta_data resp.headers kStart).getD ""))))
        else
          .error (.inconsistentError decrypt_meta_msg (requestIdOf resp))

/-- The `server_crc` property: returns the privately stored `__crc` parsed
at construction; it takes no stream state, so it cannot depend on how many
bytes have been read. -/
def GetObjectResult.server_crc (r : GetObjectResult) : Option Int := r.crc

/-- Modelled from the spec: the bytes a stage hands to its reader once the
prefix `consumed` of the raw body has been read through the pipeline.  The
progress and checksum adapters (`oss2/utils.py`, outside the embedded
source) are transparent to the byte flow; the decrypt adapter applies the
provider's stream decryption `dec key start`. -/
def streamOutput (dec : String → Int → List Nat → List Nat) (consumed : List Nat) :
    Stream → List Nat
  | .raw => consumed
  | .progress s => streamOutput dec consumed s
  | .crc s => streamOutput dec consumed s
  | .decrypt s key start => dec key start (streamOutput dec consumed s)

/-- Modelled from the spec: the `crc` attribute `client_crc` reads from the
composed stream.  The checksum adapter accumulates `crc64` over exactly the
bytes that have flowed through it; the other stages forward the attribute to
their inner stream. -/
def streamCrcAttr (crc64 : List Nat → Nat) (dec : String → Int → List Nat → List Nat)
    (consumed : List Nat) : Stream → Option Nat
  | .raw => none
  | .progress s => streamCrcAttr crc64 dec consumed s
  | .crc s => some (crc64 (streamOutput dec consumed s))
  | .decrypt s _ _ => streamCrcAttr crc64 dec consumed s

/-- The bytes that have flowed through the checksum stage of a composed
stream (`none` when the stream holds no checksum stage). -/
def crcStageBytes (dec : String → Int → List Nat → List Nat) (consumed : List Nat) :
    Stream → Option (List Nat)
  | .raw => none
  | .progress s => crcStageBytes dec consumed s
  | .crc s => some (streamOutput dec consumed s)
  | .decrypt s _ _ => crcStageBytes dec consumed s

/-- The `client_crc` property, models.py lines 135-140: the composed
stream's `crc` attribute when `__crc_enabled`, else `None`, whatever the
read state `consumed` is. -/
def GetObjectResult.client_crc (crc64 : List Nat → Nat)
    (dec : String → Int → List Nat → List Nat) (consumed : List Nat)
    (r : GetObjectResult) : Option Nat :=
  if r.crc_enabled then streamCrcAttr crc64 dec consumed r.stream else none

/-- Whether all three encryption-metadata headers are present. -/
def all3Present (headers : Headers) : Bool :=
  (hget headers kKey).isSome && ((hget headers kStart).isSome && (hget headers kAlg).isSome)

/-- How many of the three encryption-metadata headers are present. -/
def presentCount (headers : Headers) : Nat :=
  (if (hget headers kKey).isSome then 1 else 0) +
  (if (hget headers kStart).isSome then 1 else 0) +
  (if (hget headers kAlg).isSome then 1 else 0)

/-- The fields of a `GetSymlinkResult`. -/
structure GetSymlinkResult where
  status : Int
  headers : Headers
  request_id : String
  target_key : String
deriving DecidableEq, Repr

/-- `GetSymlinkResult.__init__`, models.py lines 93-98:
`self.target_key = urlunquote(_hget(self.headers, 'x-oss-symlink-target'))`.
`urlunquote` (the `oss2.compat` alias of `urllib`'s `unquote`, outside the
embedded source) is modelled from the spec as a URL-decoding function on
strings, passed as a parameter; it is applied here outside the `_hget`
presence guard, so when the header is absent the lookup yields `None` and
the interpreter raises a `TypeError` inside `unquote` instead of producing a
result. -/
def GetSymlinkResult.make (urlunquote : String → String) (resp : Resp) :
    Except PyError GetSymlinkResult :=
  match hget resp.headers "x-oss-symlink-target" with
  | some v => .ok ⟨resp.status, resp.headers, requestIdOf resp, urlunquote v⟩
  | none => .error .typeError

/-- `GetBucketStatResult`: envelope fields plus `BucketStat.__init__(0, 0, 0)`. -/
structure GetBucketStatResult where
  status : Int
  headers : Headers
  request_id : String
  storage_size_in_bytes : Int
  object_count : Int
  multi_part_upload_count : Int
deriving DecidableEq, Repr

/-- `GetBucketStatResult.__init__`, models.py lines 400-403: the envelope is
taken from the response and the statistics are zeroed; the body is never
touched, so construction is total. -/
def GetBucketStatResult.make (resp : Resp) : GetBucketStatResult :=
  ⟨resp.status, resp.headers, requestIdOf resp, 0, 0, 0⟩

/-- `LifecycleExpiration` value object (fields stored after the check);
dates are modelled as opaque strings. -/
structure LifecycleExpiration where
  days : Option Int
  date : Option String
  created_before_date : Option String
deriving DecidableEq, Repr

/-- Message of the `ClientError` raised at models.py line 466. -/
def lifecycle_expiration_msg : String :=
  "More than one field(days, date and created_before_date) has been specified"

/-- Message of the `ClientError` raised at models.py lines 482 and 497. -/
def days_cbd_msg : String :=
  "days and created_before_date should not be both specified"

/-- `LifecycleExpiration.__init__`, models.py lines 456-470: count the
non-`None` fields one by one and raise `ClientError` when more than one was
given, else store them. -/
def LifecycleExpiration.make (days : Option Int) (date created_before_date : Option String) :
    Except PyError LifecycleExpiration :=
  let n1 := if days.isSome then 0 + 1 else 0
  let n2 := if date.isSome then n1 + 1 else n1
  let n3 := if created_before_date.isSome then n2 + 1 else n2
  if n3 > 1 then .error (.clientError lifecycle_expiration_msg)
  else .ok ⟨days, date, created_before_date⟩

/-- `AbortMultipartUpload` value object. -/
structure AbortMultipartUpload where
  days : Option Int
  created_before_date : Option String
deriving DecidableEq, Repr

/-- `AbortMultipartUpload.__init__`, models.py lines 480-485. -/
def AbortMultipartUpload.make (days : Option Int) (created_before_date : Option String) :
    Except PyError AbortMultipartUpload :=
  if days.isSome && created_before_date.isSome then
    .error (.clientError days_cbd_msg)
  else .ok ⟨days, created_before_date⟩

/-- `StorageTransition` value object. -/
structure StorageTransition where
  days : Option Int
  created_before_date : Option String
  storage_class : Option String
deriving DecidableEq, Repr

/-- `StorageTransition.__init__`, models.py lines 495-501. -/
def StorageTransition.make (days : Option Int)
    (created_before_date storage_class : Option String) :
    Except PyError StorageTransition :=
  if days.isSome && created_before_date.isSome then
    .error (.clientError days_cbd_msg)
  else .ok ⟨days, created_before_date, storage_class⟩

/-- `LifecycleRule` value object (`prefix` is a Lean keyword, so the source
field `prefix` is named `prefix_str`). -/
structure LifecycleRule where
  id : String
  prefix_str : String
  status : String
  expiration : Option LifecycleExpiration
  abort_multipart_upload : Option AbortMultipartUpload
  storage_transitions : Option (List StorageTransition)
deriving DecidableEq, Repr

/-- `GetBucketLifecycleResult`: envelope fields plus `BucketLifecycle()`,
whose `rules` default to the empty list. -/
structure GetBucketLifecycleResult where
  status : Int
  headers : Headers
  request_id : String
  rules : List LifecycleRule
deriving DecidableEq, Repr

/-- `GetBucketLifecycleResult.__init__`, models.py lines 539-542. -/
def GetBucketLifecycleResult.make (resp : Resp) : GetBucketLifecycleResult :=
  ⟨resp.status, resp.headers, requestIdOf resp, []⟩

/-- `GetBucketAclResult`: envelope fields plus the `acl` payload defaulted
to the empty string (models.py lines 331-336). -/
structure GetBucketAclResult where
  status : Int
  headers : Headers
  request_id : String
  acl : String
deriving DecidableEq, Repr

/-- `GetBucketAclResult.__init__`. -/
def GetBucketAclResult.make (resp : Resp) : GetBucketAclResult :=
  ⟨resp.status, resp.headers, requestIdOf resp, ""⟩

/-- `LiveChannelInfoTarget` value object (models.py lines 583-603). -/
structure LiveChannelInfoTarget where
  type : String
  frag_duration : Int
  frag_count : Int
  playlist_name : String
deriving DecidableEq, Repr

/-- `GetLiveChannelResult`: a Python object has a single `status` attribute,
and both `RequestResult.__init__` (HTTP status, an int) and
`LiveChannelInfo.__init__` (channel status, a string) assign to it, so the
attribute is dynamically typed: `Int ⊕ String`. -/
structure GetLiveChannelResult where
  status : Int ⊕ String
  headers : Headers
  request_id : String
  description : String
  target : Option LiveChannelInfoTarget
  last_modified : Option Int
  name : Option String
  play_url : Option String
  publish_url : Option String
deriving DecidableEq, Repr

/-- `GetLiveChannelResult.__init__`, models.py lines 799-802:
`RequestResult.__init__(self, resp)` first binds `self.status` to the HTTP
status code, then `LiveChannelInfo.__init__(self)` (lines 630-644) rebinds
the same `status` attribute to its payload default `'enabled'`, so the
envelope's status code is overwritten by the payload default. -/
def GetLiveChannelResult.make (resp : Resp) : GetLiveChannelResult :=
  let afterEnvelope : GetLiveChannelResult :=
    ⟨Sum.inl resp.status, resp.headers, requestIdOf resp, "", none, none, none, none, none⟩
  { afterEnvelope with
    status := Sum.inr "enabled"
    description := ""
    target := none
    last_modified := none
    name := none
    play_url := none
    publish_url := none }

/-! ## Shared lemmas -/

theorem truthy_none : truthy none = false := rfl

theorem truthy_isSome {o : Option String} (h : truthy o = true) : o.isSome = true := by
  cases o with
  | none => simp [truthy] at h
  | some v => rfl

theorem truthy_bind_isSome {o : Option String} {f : String → Option String}
    (h : truthy (o.bind f) = true) : o.isSome = true := by
  cases o with
  | none => simp [truthy] at h
  | some v => rfl

theorem streamOutput_base (dec : String → Int → List Nat → List Nat)
    (consumed : List Nat) (pc crc_en : Bool) :
    streamOutput dec consumed (baseStream pc crc_en) = consumed := by
  cases pc <;> cases crc_en <;> rfl

theorem crcStageBytes_base_enabled (dec : String → Int → List Nat → List Nat)
    (consumed : List Nat) (pc : Bool) :
    crcStageBytes dec consumed (baseStream pc true) = some consumed := by
  cases pc <;> rfl

theorem hasDecrypt_base (pc crc_en : Bool) : hasDecrypt (baseStream pc crc_en) = false := by
  cases pc <;> cases crc_en <;> rfl

theorem streamCrcAttr_eq_map (crc64 : List Nat → Nat)
    (dec : String → Int → List Nat → List Nat) (consumed : List Nat) (s : Stream) :
    streamCrcAttr crc64 dec consumed s = (crcStageBytes dec consumed s).map crc64 := by
  induction s with
  | raw => rfl
  | progress s ih => simpa [streamCrcAttr, crcStageBytes] using ih
  | crc s => rfl
  | decrypt s k st ih => simpa [streamCrcAttr, crcStageBytes] using ih

/-- Exhaustive description of the successful runs of
`GetObjectResult.__init__`: either no crypto provider was supplied and the
stream is the plain progress/crc pipeline, or a provider was supplied, the
three metadata values resolved to truthy values, and the decrypt stage wraps
that pipeline. -/
theorem make_ok_cases (http_to_unixtime : String → Int) (resp : Resp)
    (pc crc_en : Bool) (provider : Option CryptoProvider) (r : GetObjectResult)
    (hok : GetObjectResult.make http_to_unixtime resp pc crc_en provider = .ok r) :
    (provider = none ∧
      r = GetObjectResult.mk0 http_to_unixtime resp crc_en (baseStream pc crc_en))
    ∨ ∃ p, provider = some p
        ∧ truthy (p.decrypt_oss_meta_data resp.headers kKey) = true
        ∧ truthy (p.decrypt_oss_meta_data resp.headers kStart) = true
        ∧ truthy (hget resp.headers kAlg) = true
        ∧ r = GetObjectResult.mk0 http_to_unixtime resp crc_en
              (Stream.decrypt (baseStream pc crc_en)
                ((p.decrypt_oss_meta_data resp.headers kKey).getD "")
                (pyInt ((p.decrypt_oss_meta_data resp.headers kStart).getD ""))) := by
  cases provider with
  | none =>
      left
      simp only [GetObjectResult.make] at hok
      split at hok
      · exact absurd hok (by simp)
      · exact ⟨rfl, ((Except.ok.injEq _ _).mp hok).symm⟩
  | some p =>
      right
      simp only [GetObjectResult.make] at hok
      split at hok
      · exact absurd hok (by simp)
      · split at hok
        · rename_i hcond
          obtain ⟨hks, ha⟩ := Bool.and_eq_true_iff.mp hcond
          obtain ⟨hk, hs⟩ := Bool.and_eq_true_iff.mp hks
          exact ⟨p, rfl, hk, hs, ha, ((Except.ok.injEq _ _).mp hok).symm⟩
        · exact absurd hok (by simp)

/-! ## Concrete fixtures used by witnesses and counterexamples -/

/-- A stand-in for the external HTTP-date parser. -/
def h2u0 : String → Int := fun _ => 0

/-- A provider that decrypts every raw value to a fixed non-empty string. -/
def pAny : CryptoProvider := ⟨fun _ => some "p"⟩

/-- A stand-in checksum function over byte lists. -/
def sumCrc : List Nat → Nat := fun l => l.sum

/-- A stand-in stream decryption that leaves bytes unchanged. -/
def idDec : String → Int → List Nat → List Nat := fun _ _ l => l

def respC1 : Resp := ⟨206, [(kKey, ""), (kRange, "bytes 0-0/1")], none⟩

def respW1 : Resp := ⟨206, [(kKey, "EK"), (kRange, "bytes 0-0/1"), (kStart, "S")], none⟩

def respC2 : Resp := ⟨200, [(kStart, "S"), ("x-oss-request-id", "rid2")], none⟩

def respW2 : Resp := ⟨200, [(kKey, "EK"), ("x-oss-request-id", "RID")], none⟩

def respC3 : Resp := ⟨200, [("x-oss-request-id", "reqC3")], none⟩

def respEmpty : Resp := ⟨200, [], none⟩

/-! ## C1 -/

/-- C1 (amended): for every GET-object response in which both the
encryption-key metadata header and the partial-content header are present
with non-empty values, constructing `GetObjectResult` fails with
`ClientError`, regardless of the progress/checksum settings and of whether a
decryption provider was supplied; the error is the construction's immediate
result, so no stream stage is wrapped and the encryption-metadata
consistency check (which would raise `InconsistentError`) is never
reached. -/
theorem getobject_encrypted_range_clienterror (http_to_unixtime : String → Int)
    (resp : Resp) (pc crc_en : Bool) (provider : Option CryptoProvider)
    (h1 : truthy (hget resp.headers kKey) = true)
    (h2 : truthy (hget resp.headers kRange) = true) :
    GetObjectResult.make http_to_unixtime resp pc crc_en provider =
      .error (.clientError range_get_msg) := by
  unfold GetObjectResult.make
  rw [h1, h2]
  rfl

/-- C1 witness: a response carrying non-empty encryption-key, range and
crypto-start headers, fetched with a provider supplied and all stages
enabled, is rejected with `ClientError` (not `InconsistentError`). -/
theorem getobject_encrypted_range_clienterror_witness :
    truthy (hget respW1.headers kKey) = true ∧
    truthy (hget respW1.headers kRange) = true ∧
    GetObjectResult.make h2u0 respW1 true true (some pAny) =
      .error (.clientError range_get_msg) :=
  ⟨rfl, rfl, getobject_encrypted_range_clienterror h2u0 respW1 true true (some pAny) rfl rfl⟩

/-- C1 counterexample: both headers are present (the encryption-key header
with an empty value, which Python's truthiness test treats as absent), yet
construction succeeds instead of raising `ClientError`. -/
theorem getobject_encrypted_range_counterexample :
    (hget respC1.headers kKey).isSome = true ∧
    (hget respC1.headers kRange).isSome = true ∧
    GetObjectResult.make h2u0 respC1 false false none =
      .ok (GetObjectResult.mk0 h2u0 respC1 false Stream.raw) :=
  ⟨rfl, rfl, rfl⟩

/-! ## C2 -/

/-- C2 (amended): for every GET-object response with no partial-content
header that carries exactly one or two of the three encryption-metadata
headers, constructing `GetObjectResult` with a decryption provider supplied
fails with an `InconsistentError` carrying the response's request id (with
no provider the headers are ignored and construction succeeds). -/
theorem getobject_partial_metadata_inconsistent (http_to_unixtime : String → Int)
    (resp : Resp) (pc crc_en : Bool) (p : CryptoProvider)
    (hnr : hget resp.headers kRange = none)
    (hcount : presentCount resp.headers = 1 ∨ presentCount resp.headers = 2) :
    GetObjectResult.make http_to_unixtime resp pc crc_en (some p) =
      .error (.inconsistentError decrypt_meta_msg (requestIdOf resp)) := by
  have h3' : ¬ presentCount resp.headers = 3 := by rcases hcount with h | h <;> omega
  rcases h1 : hget resp.headers kKey with _ | v1 <;>
    rcases h2 : hget resp.headers kStart with _ | v2 <;>
      rcases h3 : hget resp.headers kAlg with _ | v3
  case some.some.some =>
    exact absurd (by simp [presentCount, h1, h2, h3] : presentCount resp.headers = 3) h3'
  all_goals
    simp [GetObjectResult.make, CryptoProvider.decrypt_oss_meta_data, truthy,
      h1, h2, h3, hnr]

/-- C2 witness: a response holding exactly one encryption-metadata header
(the key), no `Content-Range`, and request id `RID`, constructed with a
provider, fails with `InconsistentError` carrying `RID`. -/
theorem getobject_partial_metadata_inconsistent_witness :
    hget respW2.headers kRange = none ∧
    presentCount respW2.headers = 1 ∧
    GetObjectResult.make h2u0 respW2 false false (some pAny) =
      .error (.inconsistentError decrypt_meta_msg "RID") :=
  ⟨rfl, rfl, getobject_partial_metadata_inconsistent h2u0 respW2 false false pAny rfl
    (Or.inl rfl)⟩

/-- C2 counterexample: a response carrying exactly one of the three
encryption-metadata headers (crypto-start) and no partial-content header,
constructed without a decryption provider, succeeds instead of failing with
`InconsistentError`: the consistency check only runs when a provider is
supplied. -/
theorem getobject_partial_metadata_counterexample :
    presentCount respC2.headers = 1 ∧
    hget respC2.headers kRange = none ∧
    GetObjectResult.make h2u0 respC2 false false none =
      .ok (GetObjectResult.mk0 h2u0 respC2 false Stream.raw) :=
  ⟨rfl, rfl, rfl⟩

/-! ## C3 -/

/-- C3 (amended): for every GET-object response in which none of the three
encryption-metadata headers is present, when no decryption provider is
supplied construction succeeds with no decryption stage in the stream,
regardless of the checksum and progress settings; but when a decryption
provider is supplied, decryption is not silently skipped: construction fails
with `InconsistentError` carrying the request id. -/
theorem getobject_no_metadata (http_to_unixtime : String → Int) (resp : Resp)
    (pc crc_en : Bool)
    (h1 : hget resp.headers kKey = none)
    (h2 : hget resp.headers kStart = none)
    (h3 : hget resp.headers kAlg = none) :
    (GetObjectResult.make http_to_unixtime resp pc crc_en none =
        .ok (GetObjectResult.mk0 http_to_unixtime resp crc_en (baseStream pc crc_en))
      ∧ hasDecrypt (baseStream pc crc_en) = false)
    ∧ ∀ p : CryptoProvider,
        GetObjectResult.make http_to_unixtime resp pc crc_en (some p) =
          .error (.inconsistentError decrypt_meta_msg (requestIdOf resp)) := by
  constructor
  · constructor
    · simp [GetObjectResult.make, truthy, h1]
    · exact hasDecrypt_base pc crc_en
  · intro p
    simp [GetObjectResult.make, CryptoProvider.decrypt_oss_meta_data, truthy, h1, h2, h3]

/-- C3 witness: on a response with no encryption metadata and request id
`reqC3`, construction without a provider succeeds with a decryption-free
stream, while construction with a provider fails with `InconsistentError`
carrying `reqC3`. -/
theorem getobject_no_metadata_witness :
    (GetObjectResult.make h2u0 respC3 true false none =
        .ok (GetObjectResult.mk0 h2u0 respC3 false (baseStream true false))
      ∧ hasDecrypt (baseStream true false) = false)
    ∧ GetObjectResult.make h2u0 respC3 true false (some pAny) =
        .error (.inconsistentError decrypt_meta_msg "reqC3") := by
  have h := getobject_no_metadata h2u0 respC3 true false rfl rfl rfl
  exact ⟨h.1, h.2 pAny⟩

/-- C3 counterexample: a response with none of the three encryption-metadata
headers, fetched with a decryption provider supplied, does not construct
successfully with decryption skipped — it raises `InconsistentError`. -/
theorem getobject_no_metadata_counterexample :
    GetObjectResult.make h2u0 respC3 false false (some pAny) =
      .error (.inconsistentError decrypt_meta_msg "reqC3") := rfl

/-! ## C4 -/

/-- C4: whenever construction succeeds, the composed stream wraps the raw
body in the fixed order progress (iff a callback was given), then checksum
(iff enabled), then decryption — the decrypt stage being present iff a
provider was supplied together with all three encryption-metadata headers;
consequently, whenever the checksum stage is active, the bytes that flow
through it are exactly the raw (pre-decryption) bytes, so decryption is the
last transformation the caller observes. -/
theorem getobject_stream_order (http_to_unixtime : String → Int) (resp : Resp)
    (pc crc_en : Bool) (provider : Option CryptoProvider) (r : GetObjectResult)
    (hok : GetObjectResult.make http_to_unixtime resp pc crc_en provider = .ok r) :
    (provider = none →
      r.stream = baseStream pc crc_en ∧ hasDecrypt (baseStream pc crc_en) = false)
    ∧ (∀ p, provider = some p →
        all3Present resp.headers = true ∧
        ∃ k st, r.stream = Stream.decrypt (baseStream pc crc_en) k st)
    ∧ (crc_en = true →
        ∀ dec consumed, crcStageBytes dec consumed r.stream = some consumed) := by
  rcases make_ok_cases http_to_unixtime resp pc crc_en provider r hok with
    ⟨hp, hr⟩ | ⟨p, hp, hk, hs, ha, hr⟩
  · subst hr
    refine ⟨fun _ => ⟨rfl, hasDecrypt_base pc crc_en⟩, ?_, ?_⟩
    · intro q hq
      rw [hp] at hq
      exact absurd hq (by simp)
    · intro hc dec consumed
      subst hc
      exact crcStageBytes_base_enabled dec consumed pc
  · subst hr
    refine ⟨fun h => absurd (hp ▸ h) (by simp), ?_, ?_⟩
    · intro q hq
      have hpq : p = q := by
        rw [hp] at hq
        exact (Option.some.injEq _ _).mp hq
      subst hpq
      refine ⟨?_, _, _, rfl⟩
      have k1 : (hget resp.headers kKey).isSome = true :=
        truthy_bind_isSome (f := p.decryptValue) hk
      have k2 : (hget resp.headers kStart).isSome = true :=
        truthy_bind_isSome (f := p.decryptValue) hs
      have k3 : (hget resp.headers kAlg).isSome = true := truthy_isSome ha
      unfold all3Present
      rw [k1, k2, k3]
      rfl
    · intro hc dec consumed
      subst hc
      show crcStageBytes dec consumed (Stream.decrypt (baseStream pc true) _ _) = some consumed
      rw [crcStageBytes]
      exact crcStageBytes_base_enabled dec consumed pc

def rCrcOnly : GetObjectResult :=
  GetObjectResult.mk0 h2u0 respEmpty true (baseStream false true)

/-- C4 witness: with no provider, no callback and checksum enabled on a
headerless response, the constructed stream is the base pipeline and holds
no decryption stage. -/
theorem getobject_stream_order_witness :
    rCrcOnly.stream = baseStream false true ∧ hasDecrypt (baseStream false true) = false :=
  (getobject_stream_order h2u0 respEmpty false true none rCrcOnly rfl).1 rfl

/-! ## C5 -/

/-- C5: for every successfully constructed result, if checksum verification
was disabled the `client_crc` accessor is `None` whatever prefix of the body
has been read; if it was enabled, then after reading the whole body the
composed stream holds a checksum stage and `client_crc` equals the checksum
computed directly over the bytes that flowed through that stage. -/
theorem getobject_client_crc_law (http_to_unixtime : String → Int)
    (crc64 : List Nat → Nat) (dec : String → Int → List Nat → List Nat)
    (resp : Resp) (pc crc_en : Bool) (provider : Option CryptoProvider)
    (body : List Nat) (r : GetObjectResult)
    (hok : GetObjectResult.make http_to_unixtime resp pc crc_en provider = .ok r) :
    (crc_en = false →
      ∀ consumed, GetObjectResult.client_crc crc64 dec consumed r = none)
    ∧ (crc_en = true →
        (crcStageBytes dec body r.stream).isSome = true ∧
        GetObjectResult.client_crc crc64 dec body r =
          (crcStageBytes dec body r.stream).map crc64) := by
  have hen : r.crc_enabled = crc_en := by
    rcases make_ok_cases http_to_unixtime resp pc crc_en provider r hok with
      ⟨_, hr⟩ | ⟨p, _, _, _, _, hr⟩ <;> (subst hr; rfl)
  constructor
  · intro hc consumed
    unfold GetObjectResult.client_crc
    rw [hen, hc]
    rfl
  · intro hc
    constructor
    · rcases make_ok_cases http_to_unixtime resp pc crc_en provider r hok with
        ⟨_, hr⟩ | ⟨p, _, _, _, _, hr⟩ <;> subst hr <;> subst hc
      · show (crcStageBytes dec body (baseStream pc true)).isSome = true
        rw [crcStageBytes_base_enabled]
        rfl
      · show (crcStageBytes dec body (Stream.decrypt (baseStream pc true) _ _)).isSome = true
        rw [crcStageBytes, crcStageBytes_base_enabled]
        rfl
    · unfold GetObjectResult.client_crc
      rw [hen, hc, if_pos rfl]
      exact streamCrcAttr_eq_map crc64 dec body r.stream

/-- C5 witness: checksum enabled, no provider, body `[1, 2, 3]` fully read:
the checksum stage is in the stream and `client_crc` is the checksum mapped
over the bytes that flowed through it. -/
theorem getobject_client_crc_law_witness :
    (crcStageBytes idDec [1, 2, 3] rCrcOnly.stream).isSome = true ∧
    GetObjectResult.client_crc sumCrc idDec [1, 2, 3] rCrcOnly =
      (crcStageBytes idDec [1, 2, 3] rCrcOnly.stream).map sumCrc :=
  (getobject_client_crc_law h2u0 sumCrc idDec respEmpty false true none [1, 2, 3]
    rCrcOnly rfl).2 rfl

/-! ## C6 -/

/-- C6: for every successfully constructed result — whatever the progress,
checksum and decryption settings — the `server_crc` accessor returns the
integer parsed at construction from the `x-oss-hash-crc64ecma` header
(`None` when that header is absent); the accessor reads a field fixed at
construction, so its value cannot depend on how many bytes have been
read. -/
theorem getobject_server_crc (http_to_unixtime : String → Int) (resp : Resp)
    (pc crc_en : Bool) (provider : Option CryptoProvider) (r : GetObjectResult)
    (hok : GetObjectResult.make http_to_unixtime resp pc crc_en provider = .ok r) :
    GetObjectResult.server_crc r = (hget resp.headers kCrc).map pyInt := by
  rcases make_ok_cases http_to_unixtime resp pc crc_en provider r hok with
    ⟨_, hr⟩ | ⟨p, _, _, _, _, hr⟩ <;> (subst hr; rfl)

def respCrc : Resp := ⟨200, [(kCrc, "123")], none⟩

def rCrc6 : GetObjectResult :=
  GetObjectResult.mk0 h2u0 respCrc false (baseStream true false)

/-- C6 witness: a response whose checksum header reads `123`, fetched with a
progress callback and checksum disabled, yields `server_crc = 123`. -/
theorem getobject_server_crc_witness :
    GetObjectResult.server_crc rCrc6 = (hget respCrc.headers kCrc).map pyInt ∧
    GetObjectResult.server_crc rCrc6 = some 123 :=
  ⟨getobject_server_crc h2u0 respCrc true false none rCrc6 rfl, by decide⟩

/-! ## C7 -/

def respNoSym : Resp := ⟨200, [("x-oss-request-id", "sym-req")], none⟩

/-- C7: evaluation of `GetSymlinkResult.__init__` at the failing input — a
response lacking the `x-oss-symlink-target` header.  Because models.py line
98 applies `urlunquote` outside the `_hget` presence guard, the lookup's
`None` reaches `urlunquote`, which is a function on strings, and the
construction raises a `TypeError` instead of succeeding with an unset
`target_key` as the lookup-with-default convention (and the claim)
prescribes. -/
theorem getsymlink_absent_target_raises :
    ∀ urlunquote : String → String,
      GetSymlinkResult.make urlunquote respNoSym = .error PyError.typeError :=
  fun _ => rfl

/-! ## C8 -/

/-- C8 (amended): constructing an envelope+payload result never raises —
in particular it is insensitive to a missing or malformed body — and leaves
the payload fields at their documented defaults (zeroed statistics, empty
rule list, empty ACL string, live-channel defaults) while the headers and
request id are taken from the response.  The HTTP status is also taken from
the response except for the live-channel results, whose payload carries its
own `status` field: there the payload default (`'enabled'`) overwrites the
envelope's status code. -/
theorem envelope_payload_defaults :
    ∀ status : Int, ∀ headers : Headers, ∀ b b' : Option (List Nat),
      (GetBucketStatResult.make ⟨status, headers, b⟩ =
          GetBucketStatResult.make ⟨status, headers, b'⟩
        ∧ GetBucketStatResult.make ⟨status, headers, b⟩ =
            ⟨status, headers, requestIdOf ⟨status, headers, b⟩, 0, 0, 0⟩)
      ∧ (GetBucketLifecycleResult.make ⟨status, headers, b⟩ =
          GetBucketLifecycleResult.make ⟨status, headers, b'⟩
        ∧ GetBucketLifecycleResult.make ⟨status, headers, b⟩ =
            ⟨status, headers, requestIdOf ⟨status, headers, b⟩, []⟩)
      ∧ (GetBucketAclResult.make ⟨status, headers, b⟩ =
          GetBucketAclResult.make ⟨status, headers, b'⟩
        ∧ GetBucketAclResult.make ⟨status, headers, b⟩ =
            ⟨status, headers, requestIdOf ⟨status, headers, b⟩, ""⟩)
      ∧ (GetLiveChannelResult.make ⟨status, headers, b⟩ =
          GetLiveChannelResult.make ⟨status, headers, b'⟩
        ∧ GetLiveChannelResult.make ⟨status, headers, b⟩ =
            ⟨Sum.inr "enabled", headers, requestIdOf ⟨status, headers, b⟩,
              "", none, none, none, none, none⟩) :=
  fun _ _ _ _ => ⟨⟨rfl, rfl⟩, ⟨rfl, rfl⟩, ⟨rfl, rfl⟩, ⟨rfl, rfl⟩⟩

def respLC : Resp := ⟨200, [("x-oss-request-id", "lc-req")], none⟩

/-- C8 counterexample: for the live-channel result the envelope's `status`
is not taken from the response: `RequestResult.__init__` stores the HTTP
status 200, but `LiveChannelInfo.__init__` then rebinds the same attribute
to the payload default `'enabled'`. -/
theorem envelope_payload_status_counterexample :
    respLC.status = 200 ∧
    (GetLiveChannelResult.make respLC).status = Sum.inr "enabled" :=
  ⟨rfl, rfl⟩

/-! ## C9 -/

def respA : Resp := ⟨200, [("etag", "\"abc123\""), ("content-length", "42")], none⟩

def respB : Resp :=
  ⟨200, [("etag", "\"abc123\""), ("content-length", "42"), (kCrc, "123")], none⟩

/-- C9: a GET-object response with etag `"abc123"` (quoted) and
content-length `42`, no encryption headers and checksum disabled,
constructs successfully with the quotes stripped from the etag, the
content length converted to the integer 42, `client_crc` unset (whatever
has been read), and `server_crc` unset when the checksum header is absent
and equal to its parsed value when present. -/
theorem getobject_scenario_a :
    ∀ http_to_unixtime : String → Int, ∀ crc64 : List Nat → Nat,
    ∀ dec : String → Int → List Nat → List Nat, ∀ consumed : List Nat,
      GetObjectResult.make http_to_unixtime respA false false none =
        .ok (GetObjectResult.mk0 http_to_unixtime respA false Stream.raw)
      ∧ (GetObjectResult.mk0 http_to_unixtime respA false Stream.raw).etag = some "abc123"
      ∧ (GetObjectResult.mk0 http_to_unixtime respA false Stream.raw).content_length =
          some 42
      ∧ GetObjectResult.client_crc crc64 dec consumed
          (GetObjectResult.mk0 http_to_unixtime respA false Stream.raw) = none
      ∧ GetObjectResult.server_crc
          (GetObjectResult.mk0 http_to_unixtime respA false Stream.raw) = none
      ∧ GetObjectResult.make http_to_unixtime respB false false none =
          .ok (GetObjectResult.mk0 http_to_unixtime respB false Stream.raw)
      ∧ GetObjectResult.server_crc
          (GetObjectResult.mk0 http_to_unixtime respB false Stream.raw) = some 123 :=
  fun _ _ _ _ => ⟨rfl, rfl, rfl, rfl, rfl, rfl, rfl⟩

/-! ## C10 -/

/-- How many of the three lifecycle-expiration fields are non-`None`. -/
def numSome3 (a : Option Int) (b c : Option String) : Nat :=
  (if a.isSome then 1 else 0) + (if b.isSome then 1 else 0) + (if c.isSome then 1 else 0)

/-- C10: `LifecycleExpiration` construction raises `ClientError` exactly
when more than one of `days`, `date` and `created_before_date` is
non-`None`, and `AbortMultipartUpload` and `StorageTransition` construction
raises `ClientError` exactly when both `days` and `created_before_date` are
non-`None`; otherwise each succeeds and stores the given fields
unchanged. -/
theorem lifecycle_mutual_exclusion :
    (∀ days : Option Int, ∀ date created_before_date : Option String,
      LifecycleExpiration.make days date created_before_date =
        if 1 < numSome3 days date created_before_date then
          .error (.clientError lifecycle_expiration_msg)
        else .ok ⟨days, date, created_before_date⟩)
    ∧ (∀ days : Option Int, ∀ created_before_date : Option String,
      AbortMultipartUpload.make days created_before_date =
        if days.isSome && created_before_date.isSome then
          .error (.clientError days_cbd_msg)
        else .ok ⟨days, created_before_date⟩)
    ∧ (∀ days : Option Int, ∀ created_before_date storage_class : Option String,
      StorageTransition.make days created_before_date storage_class =
        if days.isSome && created_before_date.isSome then
          .error (.clientError days_cbd_msg)
        else .ok ⟨days, created_before_date, storage_class⟩) := by
  refine ⟨fun days date cbd => ?_, fun days cbd => ?_, fun days cbd sc => ?_⟩
  · cases days <;> cases date <;> cases cbd <;> rfl
  · cases days <;> cases cbd <;> rfl
  · cases days <;> cases cbd <;> rfl

end Oss2
